import Mathlib

/-!
Shallow embedding of the risk-scoring and transaction-building logic of the
flare-defai repository (src/flare_defai/blockchain/), together with theorems
settling the frozen claims about it.

External collaborators (web3 RPC, the block explorer, the Gemini AI endpoint)
are modelled as environment inputs; everything this repository computes itself
is translated from the Python source.
-/

namespace FlareDefai

/-- Decidable equality for `Except`, used to evaluate concrete builder
results. -/
instance {ε α : Type} [DecidableEq ε] [DecidableEq α] : DecidableEq (Except ε α) := fun a b =>
  match a, b with
  | Except.error e₁, Except.error e₂ =>
    if h : e₁ = e₂ then isTrue (by simp [h]) else isFalse (by simp [h])
  | Except.error _, Except.ok _ => isFalse (by simp)
  | Except.ok _, Except.error _ => isFalse (by simp)
  | Except.ok a₁, Except.ok a₂ =>
    if h : a₁ = a₂ then isTrue (by simp [h]) else isFalse (by simp [h])

/-! ### String helpers mirroring Python semantics -/

/-- Python lexicographic string comparison (`a < b` on `str`), compared code
point by code point, as used by `ContractRiskReport.add_finding` when it
compares enum `.value` strings. -/
def listLtChar : List Char → List Char → Bool
  | [], [] => false
  | [], _ :: _ => true
  | _ :: _, [] => false
  | a :: as, b :: bs =>
    if a < b then true
    else if b < a then false
    else listLtChar as bs

/-- Python `a < b` on strings. -/
def strLt (a b : String) : Bool := listLtChar a.toList b.toList

/-- Python `sub in s` substring containment on strings. -/
def strContainsSub (s sub : String) : Bool :=
  let sl := s.toList
  let pl := sub.toList
  (List.range (sl.length + 1)).any (fun i => pl.isPrefixOf (sl.drop i))

/-- Python `x in setOfStrings`: membership by equality. -/
def strMem (a : String) (l : List String) : Bool := l.any (fun x => x == a)

/-- ASCII lower-casing of one character (the strings the code lower-cases are
hex addresses, all ASCII). -/
def pyCharLower (c : Char) : Char :=
  if 65 ≤ c.toNat && c.toNat ≤ 90 then Char.ofNat (c.toNat + 32) else c

/-- Python `s.lower()` on the ASCII strings involved. -/
def pyLower (s : String) : String := String.mk (s.toList.map pyCharLower)

/-- ASCII upper-casing of one character. -/
def pyCharUpper (c : Char) : Char :=
  if 97 ≤ c.toNat && c.toNat ≤ 122 then Char.ofNat (c.toNat - 32) else c

/-- Python `s.upper()` on the ASCII strings involved. -/
def pyUpper (s : String) : String := String.mk (s.toList.map pyCharUpper)

/-- Python `s.startswith(pre)`. -/
def pyStartsWith (s pre : String) : Bool := pre.toList.isPrefixOf s.toList

/-- Python truthiness of a string: non-empty. -/
def pyNonEmpty (s : String) : Bool := !s.toList.isEmpty

/-- Python `len(s)`: number of code points. -/
def pyLen (s : String) : Nat := s.toList.length

/-- Python `int(q)` on an exact (Decimal/Fraction) value: truncation toward
zero. -/
def pyInt (q : ℚ) : ℤ := Int.tdiv q.num (q.den : ℤ)

/-! ### `TransactionRisk` (transaction_validator.py lines 22-71) -/

/-- Enum `TransactionRisk` of transaction_validator.py. -/
inductive TransactionRisk where
  | SAFE
  | LOW
  | MEDIUM
  | HIGH
  | CRITICAL
  deriving DecidableEq, Repr

namespace TransactionRisk

/-- `TransactionRisk._risk_value`: numeric value for comparison.  The Python
`else: return -1` branch is unreachable because the enum has exactly these
five members. -/
def riskValue : TransactionRisk → Int
  | SAFE => 0
  | LOW => 1
  | MEDIUM => 2
  | HIGH => 3
  | CRITICAL => 4

/-- `TransactionRisk.__lt__`. -/
def ltb (a b : TransactionRisk) : Bool := a.riskValue < b.riskValue

/-- `TransactionRisk.__gt__`. -/
def gtb (a b : TransactionRisk) : Bool := b.riskValue < a.riskValue

end TransactionRisk

/-- Python `max(a, b)` on two `TransactionRisk` values: the builtin keeps the
first argument and replaces it when the second compares greater. -/
def pymaxRisk (a b : TransactionRisk) : TransactionRisk :=
  if TransactionRisk.gtb b a then b else a

/-- The spec's ranking SAFE < LOW < MEDIUM < HIGH < CRITICAL, stated from the
spec's words for comparison with the code's comparison operators. -/
def specRank : TransactionRisk → Nat
  | .SAFE => 0
  | .LOW => 1
  | .MEDIUM => 2
  | .HIGH => 3
  | .CRITICAL => 4

/-! ### `RiskLevel` (contract_risk_analyzer.py lines 65-71)

A plain `Enum` whose members carry string values; unlike `TransactionRisk`
it defines no comparison operators. -/

/-- Enum `RiskLevel` of contract_risk_analyzer.py. -/
inductive RiskLevel where
  | SAFE
  | LOW
  | MEDIUM
  | HIGH
  | CRITICAL
  deriving DecidableEq, Repr

namespace RiskLevel

/-- The `.value` string of each enum member. -/
def value : RiskLevel → String
  | SAFE => "safe"
  | LOW => "low"
  | MEDIUM => "medium"
  | HIGH => "high"
  | CRITICAL => "critical"

/-- Parsing used for AI findings: `RiskLevel(string)`, `none` on ValueError. -/
def fromValue? (s : String) : Option RiskLevel :=
  if s == "safe" then some SAFE
  else if s == "low" then some LOW
  else if s == "medium" then some MEDIUM
  else if s == "high" then some HIGH
  else if s == "critical" then some CRITICAL
  else none

/-- The spec's ranking SAFE < LOW < MEDIUM < HIGH < CRITICAL on the analyzer's
`RiskLevel`, stated from the spec's words for comparison with the comparison
the code actually performs on `.value` strings. -/
def rank : RiskLevel → Nat
  | SAFE => 0
  | LOW => 1
  | MEDIUM => 2
  | HIGH => 3
  | CRITICAL => 4

end RiskLevel

/-- The update rule `add_finding` applies to the running risk level: the new
level replaces the current one exactly when its `.value` string compares
greater (Python string comparison). -/
def valueMergeMax (cur new : RiskLevel) : RiskLevel :=
  if strLt cur.value new.value then new else cur

/-! ### Transaction validator (transaction_validator.py)

The transaction dictionary: `Option` models key presence (`field in tx` /
`tx.get(field)`). -/

/-- The transaction dict handed to `validate_transaction`.  `fromAddr` stands
for the Python key `"from"` (a Lean keyword). -/
structure Tx where
  toAddr : Option String
  value : Option Nat
  gas : Option Nat
  gasPrice : Option Nat
  data : Option String
  fromAddr : Option String
  deriving DecidableEq, Repr

/-- External blockchain / library state consumed by the validator.  `rpcFails`
models an exception raised inside `_simulate_transaction`'s try block;
`isAddress` is web3's `Web3.is_address`; `codeLen` is
`len(web3.eth.get_code(addr))`. -/
structure ChainEnv where
  rpcFails : Bool
  balance : Nat
  gasPriceDefault : Nat
  codeLen : String → Nat
  isAddress : String → Bool
  scamAddresses : List String

/-- The dictionary returned by `_simulate_transaction`, flattened: fields are
read in `_calculate_risk_level` through `.get` with defaults
(`simulation_successful` default False, `can_afford` default True,
`is_contract_interaction` default False, `contract_verification.is_verified`
default False), so the failure dictionary is modelled with exactly those
defaults. -/
structure SimulationResult where
  simulation_successful : Bool
  can_afford : Bool
  estimated_gas : Nat
  is_contract_interaction : Bool
  contract_is_verified : Bool
  deriving DecidableEq, Repr

/-- The parsed AI analysis dictionary as read by `_calculate_risk_level`:
`security_score` via `.get("security_score", 50)` and `risk_assessment` via
`.get("risk_assessment", "")`.  The AI call itself is external, so this is an
environment input. -/
structure AiAnalysis where
  security_score : Int
  risk_assessment : String
  deriving DecidableEq, Repr

/-- The error marker searched for in `risk_assessment`
(transaction_validator.py line 558). -/
def aiErrorMarker : String := "AI analysis encountered an error:"

/-- `ai_error = "AI analysis encountered an error:" in
ai_analysis.get("risk_assessment", "")`. -/
def AiAnalysis.aiErrorFlag (ai : AiAnalysis) : Bool :=
  strContainsSub ai.risk_assessment aiErrorMarker

/-- The (syntactically invalid, 41-character) WFLR constant written inline in
`_perform_basic_validation` (line 248) and `_calculate_risk_level`
(line 485); note it differs from the lowercase of the 42-character WFLR
address added to `known_safe_contracts` in `__init__`. -/
def wflrTrunc : String := "0x1d80c49bbcd1c0911346656b529df9e5c2f783d"

/-- The router constant written inline in `_calculate_risk_level`
(line 487). -/
def routerCalc : String := "0x8a1e35f5c98c4e85b36b7b253222ee17773b2781"

/-- The `known_safe_contracts` set populated in
`SecureTransactionValidator.__init__` (lines 119-126), all lower-cased. -/
def initKnownSafeContracts : List String :=
  ["0x1111111111111111111111111111111111111111",
   "0x1D80c49BbBCd1C0911346656B529DF9E5c2F783d",
   "0xFbDa5F676cB37624f28265A144A48B0d6e87d3b6",
   "0x16b619B04c961E8f4F06C10B42FDAbb328980A89",
   "0x4a1E5A90e9943467FAd1acea1E7F0e5e88472a1e",
   "0x8a1E35F5c98C4E85B36B7B253222eE17773b2781",
   "0x8A2578d23d4C532cC9A98FaD91C0523f5efDE652",
   "0x0f3D8a38D4c74afBebc2c42695642f0e3acb15D3"].map pyLower

/-- `to_address = tx.get("to", "").lower() if tx.get("to") else ""`
(line 498): Python truthiness makes both a missing and an empty `to` yield
the empty string. -/
def txToLower (tx : Tx) : String :=
  match tx.toAddr with
  | some s => if !pyNonEmpty s then "" else pyLower s
  | none => ""

/-- The `known_safe_contract` test of `_calculate_risk_level` (lines 489-505):
the function first inserts its inline WFLR/router constants into the set, then
checks membership or direct equality against those constants. -/
def knownSafeCheck (safeSet : List String) (tx : Tx) : Bool :=
  let safe := wflrTrunc :: routerCalc :: safeSet
  let toA := txToLower tx
  strMem toA safe || toA == wflrTrunc || toA == routerCalc

/-- Result of `_perform_basic_validation`; `safeSet` is the validator's
`known_safe_contracts` set after the method ran (it adds `to_address` when it
starts with the inline WFLR constant). -/
structure BasicResult where
  is_valid : Bool
  warnings : List String
  safeSet : List String

/-- `_perform_basic_validation` (lines 206-257). -/
def performBasicValidation (env : ChainEnv) (safeSet : List String) (tx : Tx)
    (sender : String) : BasicResult :=
  let missingTo := tx.toAddr.isNone
  let missingValue := tx.value.isNone
  let missingGas := tx.gas.isNone
  let wA := (if missingTo then ["Missing required field: to"] else [])
    ++ (if missingValue then ["Missing required field: value"] else [])
    ++ (if missingGas then ["Missing required field: gas"] else [])
  let badAddr := match tx.toAddr with
    | some s => pyNonEmpty s && !env.isAddress s
    | none => false
  let wB := wA ++ (if badAddr then ["Invalid recipient address"] else [])
  let badFrom := match tx.fromAddr with
    | some s => pyNonEmpty s && s != sender
    | none => false
  let wC := wB ++
    (if badFrom then ["Transaction sender doesn\x27t match authenticated user"] else [])
  let highGas := tx.gas.getD 0 > 10000000
  let wD := wC ++ (if highGas then ["Unusually high gas limit"] else [])
  let toAddress := pyLower (tx.toAddr.getD "")
  let safeSet2 := if pyStartsWith toAddress wflrTrunc then toAddress :: safeSet else safeSet
  { is_valid := !missingTo && !missingValue && !missingGas && !badAddr && !badFrom
    warnings := wD
    safeSet := safeSet2 }

/-- Result of `_perform_security_validation`. -/
structure SecurityResult where
  is_valid : Bool
  warnings : List String

/-- `_perform_security_validation` (lines 259-292).  `to_wei(1000, "ether")`
is `10^21`. -/
def performSecurityValidation (env : ChainEnv) (tx : Tx) : SecurityResult :=
  let scamHit := match tx.toAddr with
    | some s => strMem s env.scamAddresses
    | none => false
  let w1 := if scamHit then ["Recipient is a known scam address"] else []
  let bigData := match tx.data with
    | some d => pyNonEmpty d && pyLen d > 1000000
    | none => false
  let w2 := w1 ++ (if bigData then ["Unusually large data field"] else [])
  let highValue := tx.value.getD 0 > 1000000000000000000000
  let w3 := w2 ++ (if highValue then ["Unusually high transaction value"] else [])
  { is_valid := !scamHit, warnings := w3 }

/-- `_simulate_transaction` (lines 294-344).  The failure branch mirrors the
`except` handler: only `simulation_successful = False` is present, the other
fields take the `.get` defaults used by `_calculate_risk_level`.
`contract_verification.is_verified` compares the raw (not lower-cased) `to`
against the safe set, exactly as the Python does. -/
def simulateTransaction (env : ChainEnv) (safeSet : List String) (tx : Tx) :
    SimulationResult :=
  if env.rpcFails then
    { simulation_successful := false
      can_afford := true
      estimated_gas := 0
      is_contract_interaction := false
      contract_is_verified := false }
  else
    let txValue := tx.value.getD 0
    let gasPrice := tx.gasPrice.getD env.gasPriceDefault
    let gasLimit := tx.gas.getD 21000
    let maxFee := gasPrice * gasLimit
    let canAfford := decide (txValue + maxFee ≤ env.balance)
    match tx.toAddr with
    | some toA =>
      if !pyNonEmpty toA then
        { simulation_successful := true
          can_afford := canAfford
          estimated_gas := gasLimit
          is_contract_interaction := false
          contract_is_verified := false }
      else
        { simulation_successful := true
          can_afford := canAfford
          estimated_gas := gasLimit
          is_contract_interaction := decide (0 < env.codeLen toA)
          contract_is_verified := strMem toA safeSet }
    | none =>
      { simulation_successful := true
        can_afford := canAfford
        estimated_gas := gasLimit
        is_contract_interaction := false
        contract_is_verified := false }

/-- `_calculate_risk_level` (lines 466-591), translated branch by branch.
Note the simulation branches are plain assignments (not `max`), while the
middle AI-score buckets use Python's `max`. -/
def calculateRiskLevel (safeSet : List String) (tx : Tx) (sim : SimulationResult)
    (ai : AiAnalysis) (warnings : List String) : TransactionRisk :=
  let risk0 := TransactionRisk.LOW
  let knownSafe := knownSafeCheck safeSet tx
  if knownSafe then TransactionRisk.LOW
  else
    let risk1 :=
      if warnings.length > 5 then TransactionRisk.CRITICAL
      else if warnings.length > 3 then TransactionRisk.HIGH
      else if warnings.length > 1 then TransactionRisk.MEDIUM
      else risk0
    let risk2 :=
      if !sim.simulation_successful then TransactionRisk.HIGH
      else if !sim.can_afford then TransactionRisk.HIGH
      else risk1
    let score := ai.security_score
    let risk3 :=
      if !ai.aiErrorFlag then
        if score < 20 then TransactionRisk.CRITICAL
        else if score < 40 then pymaxRisk risk2 TransactionRisk.HIGH
        else if score < 60 then pymaxRisk risk2 TransactionRisk.MEDIUM
        else if score < 80 then pymaxRisk risk2 TransactionRisk.LOW
        else if risk2 == TransactionRisk.LOW then TransactionRisk.SAFE
        else risk2
      else risk2
    if sim.is_contract_interaction && !knownSafe then
      if !sim.contract_is_verified then
        if risk3 == TransactionRisk.SAFE then TransactionRisk.LOW else risk3
      else risk3
    else risk3

/-- `_generate_recommendation` (lines 593-618). -/
def generateRecommendation (risk : TransactionRisk) : String :=
  if risk == TransactionRisk.CRITICAL then
    "CRITICAL RISK DETECTED. Transaction should not proceed."
  else if risk == TransactionRisk.HIGH then
    "HIGH RISK DETECTED. Transaction should be carefully reviewed before proceeding."
  else if risk == TransactionRisk.MEDIUM then
    "MODERATE RISK DETECTED. Proceed with caution and verify transaction details."
  else if risk == TransactionRisk.LOW then
    "LOW RISK DETECTED. Transaction appears mostly safe but verify details."
  else
    "Transaction appears safe to execute."

/-- `TransactionValidationResult` (lines 74-81); `ai_analysis` keeps the
fields the rest of the validator reads. -/
structure TransactionValidationResult where
  is_valid : Bool
  risk_level : TransactionRisk
  warnings : List String
  simulation_result : Option SimulationResult
  ai_analysis : Option AiAnalysis
  recommendation : Option String
  deriving DecidableEq, Repr

/-- `validate_transaction` (lines 128-204).  `ai` is the outcome of the
external `_perform_ai_analysis` call.  On a basic-validation or
security-validation rejection only that stage's warnings are returned,
exactly as in the source. -/
def validateTransaction (env : ChainEnv) (safeSet : List String) (tx : Tx)
    (sender : String) (ai : AiAnalysis) : TransactionValidationResult :=
  let basic := performBasicValidation env safeSet tx sender
  if !basic.is_valid then
    { is_valid := false
      risk_level := TransactionRisk.CRITICAL
      warnings := basic.warnings
      simulation_result := none
      ai_analysis := none
      recommendation := some "Transaction contains critical errors and should not be executed." }
  else
    let sec := performSecurityValidation env tx
    if !sec.is_valid then
      { is_valid := false
        risk_level := TransactionRisk.HIGH
        warnings := sec.warnings
        simulation_result := none
        ai_analysis := none
        recommendation := some "Transaction failed security validation and may be malicious." }
    else
      let warnings := basic.warnings ++ sec.warnings
      let sim := simulateTransaction env basic.safeSet tx
      let risk := calculateRiskLevel basic.safeSet tx sim ai warnings
      { is_valid := risk != TransactionRisk.CRITICAL
        risk_level := risk
        warnings := warnings
        simulation_result := some sim
        ai_analysis := some ai
        recommendation := some (generateRecommendation risk) }

/-! ### Contract risk analyzer (contract_risk_analyzer.py) -/

/-- Enum `RiskCategory` (lines 73-80). -/
inductive RiskCategory where
  | IMPLEMENTATION
  | ACCESS_CONTROL
  | UPGRADEABLE
  | EXTERNAL_CALLS
  | FINANCIAL
  | OPERATIONAL
  deriving DecidableEq, Repr

/-- `RiskCategory(string)` parsing, `none` on ValueError. -/
def RiskCategory.fromValue? (s : String) : Option RiskCategory :=
  if s == "implementation" then some IMPLEMENTATION
  else if s == "access_control" then some ACCESS_CONTROL
  else if s == "upgradeable" then some UPGRADEABLE
  else if s == "external_calls" then some EXTERNAL_CALLS
  else if s == "financial" then some FINANCIAL
  else if s == "operational" then some OPERATIONAL
  else none

/-- Dataclass `RiskFinding` (lines 82-90). -/
structure RiskFinding where
  category : RiskCategory
  level : RiskLevel
  title : String
  description : String
  locations : List String
  recommendation : Option String
  deriving DecidableEq, Repr

/-- The explorer's verification dictionary as read through `.get` by the
analyzer (`is_verified` default False), plus the keys the analyzer itself
writes. -/
structure VerificationStatus where
  is_verified : Bool
  is_trusted : Bool
  error : Option String
  deriving DecidableEq, Repr

/-- The `bytecode_analysis` dictionary assembled from `_analyze_bytecode`'s
tuple (lines 236-241). -/
structure BytecodeAnalysis where
  dangerous_functions : List (String × String)
  selfdestruct_found : Bool
  delegatecall_found : Bool
  is_proxy : Bool
  deriving DecidableEq, Repr

/-- An entry of `access_control_issues`; the analyzer reads these keys in the
findings loop (lines 308-316).  `_analyze_source_code` never populates the
list, so this is carried only for fidelity of the (dead) loop. -/
structure AccessIssue where
  title : String
  description : String
  locations : List String
  recommendation : Option String
  deriving DecidableEq, Repr

/-- Result dictionary of `_analyze_source_code` (lines 427-432). -/
structure SourceAnalysis where
  upgradeability_risk : Bool
  centralized_ownership : Bool
  access_control_issues : List AccessIssue
  timestamp_dependency : Bool
  deriving DecidableEq, Repr

/-- A raw finding dictionary from the AI response, read through `.get` with
the defaults of lines 333-351. -/
structure AiRawFinding where
  category : Option String
  risk_level : Option String
  title : Option String
  description : Option String
  recommendation : Option String
  deriving DecidableEq, Repr

/-- Dataclass `ContractRiskReport` (lines 92-104).  `ai_analysis` keeps the
`findings` key the analyzer reads (a missing key or falsy dict is `none`). -/
structure ContractRiskReport where
  contract_address : String
  chain_id : Nat
  risk_level : RiskLevel
  findings : List RiskFinding
  verification_status : VerificationStatus
  bytecode_analysis : Option BytecodeAnalysis
  source_code_analysis : Option (Except String SourceAnalysis)
  ai_analysis : Option (List AiRawFinding)
  summary : String

/-- `ContractRiskReport.add_finding` (lines 106-111): appends the finding and
replaces the running `risk_level` when `finding.level.value >
self.risk_level.value` — a comparison of the enum **value strings**. -/
def ContractRiskReport.addFinding (r : ContractRiskReport) (f : RiskFinding) :
    ContractRiskReport :=
  let r := { r with findings := r.findings ++ [f] }
  { r with risk_level := valueMergeMax r.risk_level f.level }

/-- `ContractRiskReport.get_findings_by_level` (lines 117-119). -/
def ContractRiskReport.getFindingsByLevel (r : ContractRiskReport)
    (lvl : RiskLevel) : List RiskFinding :=
  r.findings.filter (fun f => f.level == lvl)

/-- `_analyze_source_code` (lines 414-459): the pattern matches on the
serialized source are external data, so they arrive as booleans; the result
dictionary structure is the code's, in particular `access_control_issues` is
always left empty. -/
def analyzeSourceCode (hasUpgradePattern hasOwnershipPattern hasTimestampPattern : Bool) :
    SourceAnalysis :=
  { upgradeability_risk := hasUpgradePattern
    centralized_ownership := hasOwnershipPattern
    access_control_issues := []
    timestamp_dependency := hasTimestampPattern }

/-- External inputs of one `analyze_contract` run: chain code length, the
static known-safe set test, the explorer's verification response (`Except`
models the `try/except`), the `_analyze_bytecode` tuple (its regex/substring
scan over the raw bytecode hex is an external-data computation none of the
claims depend on), the source-code pattern hits, and the parsed AI
findings. -/
structure AnalyzerEnv where
  contract_address : String
  chain_id : Nat
  codeLen : Nat
  knownSafe : Bool
  verification : Except String VerificationStatus
  dangerousFunctions : List (String × String)
  selfdestructFound : Bool
  delegatecallFound : Bool
  isProxy : Bool
  sourceFails : Bool
  sourceError : String
  srcUpgradePattern : Bool
  srcOwnershipPattern : Bool
  srcTimestampPattern : Bool
  aiFindings : Option (List AiRawFinding)

/-- The finding of the empty-bytecode short-circuit (lines 192-198). -/
def notAContractFinding : RiskFinding :=
  { category := RiskCategory.IMPLEMENTATION
    level := RiskLevel.CRITICAL
    title := "Not a Contract"
    description := "The address does not contain contract code. It might be an EOA or a self-destructed contract."
    locations := []
    recommendation := some "Do not interact with this address as a contract." }

/-- The unverified-contract finding (lines 226-232). -/
def unverifiedContractFinding : RiskFinding :=
  { category := RiskCategory.IMPLEMENTATION
    level := RiskLevel.MEDIUM
    title := "Unverified Contract"
    description := "The contract source code is not verified on block explorer."
    locations := []
    recommendation := some "Exercise caution when interacting with unverified contracts." }

/-- A dangerous-function finding (lines 244-252). -/
def dangerousFunctionFinding (sig name : String) : RiskFinding :=
  { category := RiskCategory.IMPLEMENTATION
    level := RiskLevel.HIGH
    title := "Dangerous Function: " ++ name
    description := "The contract contains potentially dangerous function " ++ name ++ "."
    locations := ["Function signature: " ++ sig]
    recommendation := some "Review how and when this function can be called." }

/-- The self-destruct finding (lines 254-261). -/
def selfdestructFinding : RiskFinding :=
  { category := RiskCategory.IMPLEMENTATION
    level := RiskLevel.HIGH
    title := "Self-Destruct Found"
    description := "The contract contains code that can self-destruct, potentially locking funds forever."
    locations := []
    recommendation := some "Verify the conditions under which self-destruct can be triggered." }

/-- The delegatecall finding (lines 263-270). -/
def delegatecallFinding : RiskFinding :=
  { category := RiskCategory.EXTERNAL_CALLS
    level := RiskLevel.MEDIUM
    title := "Delegatecall Usage"
    description := "The contract uses delegatecall which can be dangerous if not properly secured."
    locations := []
    recommendation := some "Ensure delegatecall targets are trusted and cannot be manipulated." }

/-- The proxy-pattern finding (lines 272-279). -/
def proxyFinding : RiskFinding :=
  { category := RiskCategory.UPGRADEABLE
    level := RiskLevel.MEDIUM
    title := "Proxy Pattern Detected"
    description := "This appears to be a proxy contract that delegates to another implementation."
    locations := []
    recommendation := some "Review the upgrade mechanism and implementation contract." }

/-- The upgradeable-contract finding (lines 289-296). -/
def upgradeableFinding : RiskFinding :=
  { category := RiskCategory.UPGRADEABLE
    level := RiskLevel.MEDIUM
    title := "Upgradeable Contract"
    description := "This contract can be upgraded, potentially changing its behavior in the future."
    locations := []
    recommendation := some "Monitor upgrade events and admin operations on this contract." }

/-- The centralized-control finding (lines 298-305). -/
def centralizedFinding : RiskFinding :=
  { category := RiskCategory.ACCESS_CONTROL
    level := RiskLevel.MEDIUM
    title := "Centralized Control"
    description := "The contract has centralized control through owner/admin functions."
    locations := []
    recommendation := some "Verify the trustworthiness of the contract owner/admin." }

/-- A finding built from an `access_control_issues` entry (lines 308-316). -/
def accessIssueFinding (i : AccessIssue) : RiskFinding :=
  { category := RiskCategory.ACCESS_CONTROL
    level := RiskLevel.MEDIUM
    title := i.title
    description := i.description
    locations := i.locations
    recommendation := i.recommendation }

/-- A finding parsed from an AI-response finding dict (lines 333-351). -/
def aiFindingToRiskFinding (f : AiRawFinding) : RiskFinding :=
  let category :=
    match RiskCategory.fromValue? (f.category.getD "implementation") with
    | some c => c
    | none => RiskCategory.IMPLEMENTATION
  let level :=
    match RiskLevel.fromValue? (f.risk_level.getD "medium") with
    | some l => l
    | none => RiskLevel.MEDIUM
  { category := category
    level := level
    title := f.title.getD "AI-detected Issue"
    description := f.description.getD "No description provided"
    locations := []
    recommendation := f.recommendation }

/-- The final risk-level recomputation of `analyze_contract`
(lines 353-363). -/
def overallRiskFromFindings (r : ContractRiskReport) : RiskLevel :=
  if (r.getFindingsByLevel RiskLevel.CRITICAL).length > 0 then RiskLevel.CRITICAL
  else if (r.getFindingsByLevel RiskLevel.HIGH).length > 0 then RiskLevel.HIGH
  else if (r.getFindingsByLevel RiskLevel.MEDIUM).length > 0 then RiskLevel.MEDIUM
  else if (r.getFindingsByLevel RiskLevel.LOW).length > 0 then RiskLevel.LOW
  else RiskLevel.SAFE

/-- `_generate_summary` (lines 573-592). -/
def generateSummary (r : ContractRiskReport) : String :=
  let criticalCount := (r.getFindingsByLevel RiskLevel.CRITICAL).length
  let highCount := (r.getFindingsByLevel RiskLevel.HIGH).length
  let mediumCount := (r.getFindingsByLevel RiskLevel.MEDIUM).length
  let lowCount := (r.getFindingsByLevel RiskLevel.LOW).length
  if criticalCount > 0 then
    "CRITICAL RISK: Found " ++ toString criticalCount ++ " critical, "
      ++ toString highCount ++ " high, and " ++ toString mediumCount
      ++ " medium issues. DO NOT interact with this contract."
  else if highCount > 0 then
    "HIGH RISK: Found " ++ toString highCount ++ " high and "
      ++ toString mediumCount ++ " medium security issues. Proceed with extreme caution."
  else if mediumCount > 0 then
    "MEDIUM RISK: Found " ++ toString mediumCount ++ " medium and "
      ++ toString lowCount ++ " low security issues. Review findings before proceeding."
  else if lowCount > 0 then
    "LOW RISK: Found " ++ toString lowCount
      ++ " minor security considerations. Contract appears relatively safe."
  else
    "Contract appears safe based on our analysis. No security issues detected."

/-- The main (non-short-circuit) path of `analyze_contract` up to, but not
including, the final risk-level recomputation: verification lookup,
unverified finding, bytecode findings, source-code findings, AI findings
(lines 212-351). -/
def analyzeContractPre (env : AnalyzerEnv) : ContractRiskReport :=
  let report0 : ContractRiskReport :=
    { contract_address := env.contract_address
      chain_id := env.chain_id
      risk_level := RiskLevel.LOW
      findings := []
      verification_status := { is_verified := false, is_trusted := false, error := none }
      bytecode_analysis := none
      source_code_analysis := none
      ai_analysis := none
      summary := "" }
  let report1 :=
    match env.verification with
    | Except.ok v => { report0 with verification_status := v }
    | Except.error e =>
      { report0 with verification_status :=
          { is_verified := false, is_trusted := false, error := some e } }
  let report2 :=
    if !report1.verification_status.is_verified then
      ({ report1 with risk_level := RiskLevel.MEDIUM }).addFinding unverifiedContractFinding
    else report1
  let ba : BytecodeAnalysis :=
    { dangerous_functions := env.dangerousFunctions
      selfdestruct_found := env.selfdestructFound
      delegatecall_found := env.delegatecallFound
      is_proxy := env.isProxy }
  let report3 := { report2 with bytecode_analysis := some ba }
  let report4 := env.dangerousFunctions.foldl
    (fun r sn => r.addFinding (dangerousFunctionFinding sn.1 sn.2)) report3
  let report5 := if env.selfdestructFound then report4.addFinding selfdestructFinding else report4
  let report6 := if env.delegatecallFound then report5.addFinding delegatecallFinding else report5
  let report7 := if env.isProxy then report6.addFinding proxyFinding else report6
  let report8 :=
    if report7.verification_status.is_verified then
      if env.sourceFails then
        { report7 with source_code_analysis := some (Except.error env.sourceError) }
      else
        let sa := analyzeSourceCode env.srcUpgradePattern env.srcOwnershipPattern
          env.srcTimestampPattern
        let r := { report7 with source_code_analysis := some (Except.ok sa) }
        let r := if sa.upgradeability_risk then r.addFinding upgradeableFinding else r
        let r := if sa.centralized_ownership then r.addFinding centralizedFinding else r
        sa.access_control_issues.foldl (fun r i => r.addFinding (accessIssueFinding i)) r
    else report7
  let report9 := { report8 with ai_analysis := env.aiFindings }
  match env.aiFindings with
  | some fs => fs.foldl (fun r f => r.addFinding (aiFindingToRiskFinding f)) report9
  | none => report9

/-- The main path of `analyze_contract` (lines 212-371): the pre-pass above
followed by the recomputation of `risk_level` from the findings list and the
summary generation. -/
def analyzeContractMain (env : AnalyzerEnv) : ContractRiskReport :=
  let report := { analyzeContractPre env with
    risk_level := overallRiskFromFindings (analyzeContractPre env) }
  { report with summary := generateSummary report }

/-- `analyze_contract` (lines 157-371), one (cache-filling) invocation: the
empty-bytecode short-circuit, the known-safe short-circuit, then the main
analysis path.  The per-address cache is process state orthogonal to the
claims and is not modelled. -/
def analyzeContract (env : AnalyzerEnv) : ContractRiskReport :=
  let report0 : ContractRiskReport :=
    { contract_address := env.contract_address
      chain_id := env.chain_id
      risk_level := RiskLevel.LOW
      findings := []
      verification_status := { is_verified := false, is_trusted := false, error := none }
      bytecode_analysis := none
      source_code_analysis := none
      ai_analysis := none
      summary := "" }
  if env.codeLen ≤ 2 then
    let report := { report0 with risk_level := RiskLevel.CRITICAL }
    let report := report.addFinding notAContractFinding
    { report with summary := "CRITICAL RISK: Not a valid smart contract." }
  else if env.knownSafe then
    { report0 with
        risk_level := RiskLevel.SAFE
        verification_status := { is_verified := true, is_trusted := true, error := none }
        summary := "This contract is verified and marked as trusted." }
  else
    analyzeContractMain env

/-- The spec's description of the final level: CRITICAL if any critical
finding exists, else HIGH if any high finding, else MEDIUM, else LOW, else
SAFE.  Stated from the claim's words, to be compared with the code's
filter-length cascade. -/
def specHighestSeverity (fs : List RiskFinding) : RiskLevel :=
  if fs.any (fun f => f.level == RiskLevel.CRITICAL) then RiskLevel.CRITICAL
  else if fs.any (fun f => f.level == RiskLevel.HIGH) then RiskLevel.HIGH
  else if fs.any (fun f => f.level == RiskLevel.MEDIUM) then RiskLevel.MEDIUM
  else if fs.any (fun f => f.level == RiskLevel.LOW) then RiskLevel.LOW
  else RiskLevel.SAFE

/-! ### DeFi transaction builder (defi.py) -/

/-- The ABI-encoded call carried in a built transaction's `data` field; the
encoding itself is done by the web3 library, so the call is kept symbolic
with the arguments the builder passes (defi.py's `build_transaction`
calls). -/
inductive CallData where
  | approve (spender : String) (amount : Nat)
  | deposit
  | swapExactETHForTokens (amountOutMin : Int) (path : List String)
      (recipient : String) (deadline : Nat)
  | swapExactTokensForETH (amountIn : Nat) (amountOutMin : Int) (path : List String)
      (recipient : String) (deadline : Nat)
  | swapExactTokensForTokens (amountIn : Nat) (amountOutMin : Int) (path : List String)
      (recipient : String) (deadline : Nat)
  | exactInputSingle (tokenIn tokenOut : String) (fee : Nat) (recipient : String)
      (deadline : Nat) (amountIn : Nat) (amountOutMinimum : Int)
      (sqrtPriceLimitX96 : Nat)
  deriving DecidableEq, Repr

/-- Constructor name of a call, used to state transaction-sequence shapes. -/
def CallData.tag : CallData → String
  | .approve _ _ => "approve"
  | .deposit => "deposit"
  | .swapExactETHForTokens _ _ _ _ => "swapExactETHForTokens"
  | .swapExactTokensForETH _ _ _ _ _ => "swapExactTokensForETH"
  | .swapExactTokensForTokens _ _ _ _ _ => "swapExactTokensForTokens"
  | .exactInputSingle _ _ _ _ _ _ _ _ => "exactInputSingle"

/-- The `amountOutMin` argument of a V2 router swap call, when present. -/
def CallData.v2MinOut? : CallData → Option Int
  | .swapExactETHForTokens m _ _ _ => some m
  | .swapExactTokensForETH _ m _ _ _ => some m
  | .swapExactTokensForTokens _ m _ _ _ => some m
  | _ => none

/-- The `amountOutMinimum` parameter of a V3 `exactInputSingle` call, when
present. -/
def CallData.v3MinOut? : CallData → Option Int
  | .exactInputSingle _ _ _ _ _ _ m _ => some m
  | _ => none

/-- A transaction dictionary built by `DeFiService`.  `value` is `none` when
the Python dict has no `"value"` key (the approval transaction of
`_approve_token_if_needed`); fee fields are `none` when absent (EIP-1559
transactions carry `maxFeePerGas`/`maxPriorityFeePerGas`/`txType = 2`, the
V3 swap-path transactions carry a legacy `gasPrice`). -/
structure TxOut where
  sender : String
  targetAddr : String
  value : Option Nat
  data : CallData
  gas : Nat
  nonce : Nat
  gasPrice : Option Nat
  maxFeePerGas : Option Nat
  maxPriorityFeePerGas : Option Nat
  chainId : Nat
  txType : Option Nat
  deriving DecidableEq, Repr

/-- `TOKEN_ADDRESSES` (defi.py lines 350-354). -/
def TOKEN_ADDRESSES : List (String × String) :=
  [("FLR", "0x1111111111111111111111111111111111111111"),
   ("WFLR", "0x1D80c49BbBCd1C0911346656B529DF9E5c2F783d"),
   ("USDC", "0xFbDa5F676cB37624f28265A144A48B0d6e87d3b6")]

/-- `self.token_addresses.get(symbol)`. -/
def tokenAddress? (sym : String) : Option String :=
  TOKEN_ADDRESSES.lookup sym

/-- `UNISWAP_V2_ROUTER` (defi.py line 359). -/
def UNISWAP_V2_ROUTER : String := "0x4a1E5A90e9943467FAd1acea1E7F0e5e88472a1e"

/-- `UNISWAP_V3_ROUTER` (defi.py line 360). -/
def UNISWAP_V3_ROUTER : String := "0x8a1E35F5c98C4E85B36B7B253222eE17773b2781"

/-- `DEFAULT_DEADLINE` (defi.py line 382). -/
def DEFAULT_DEADLINE : Nat := 20 * 60

/-- `web3.to_wei(amount, "ether")` on an exact decimal amount: multiply by
`10^18` and truncate to an integer (modelled from the library's documented
conversion; swap amounts are non-negative). -/
def toWeiEther (amount : ℚ) : Nat :=
  (pyInt (amount * (10 : ℚ) ^ 18)).toNat

/-- External chain state read while building swap transactions.
`alreadyApproved` records whether the sender has already granted the router
an allowance for the source token; `_approve_token_if_needed` deliberately
never consults it ("In production, would check current allowance first"), and
the model keeps that fidelity by ignoring the field. -/
structure SwapEnv where
  blockTimestamp : Nat
  nonce : Nat
  gasPrice : Nat
  maxPriorityFee : Nat
  chainId : Nat
  alreadyApproved : Bool

/-- `_get_eip1559_tx_params` (defi.py lines 439-451). -/
def eip1559Params (env : SwapEnv) : Nat × Nat × Nat × Nat :=
  (env.gasPrice, env.maxPriorityFee, env.chainId, 2)

/-- `_approve_token_if_needed` (defi.py lines 453-490): returns `none` only
for the native-token placeholder address; it does **not** check the current
allowance. -/
def approveTokenIfNeeded (env : SwapEnv) (tokenAddress spender : String)
    (amount : Nat) (sender : String) : Option TxOut :=
  if pyLower tokenAddress == pyLower "0x1111111111111111111111111111111111111111" then
    none
  else
    some
      { sender := sender
        targetAddr := tokenAddress
        value := none
        data := CallData.approve spender amount
        gas := 100000
        nonce := env.nonce
        gasPrice := none
        maxFeePerGas := some env.gasPrice
        maxPriorityFeePerGas := some env.maxPriorityFee
        chainId := env.chainId
        txType := some 2 }

/-- `create_v2_swap_tx` (defi.py lines 492-579), returning the
`(swap_tx, approval_tx or None)` pair; `ValueError` raises become
`Except.error`. -/
def createV2SwapTx (env : SwapEnv) (fromToken toToken : String) (amount : ℚ)
    (sender : String) (slippage : ℚ) : Except String (TxOut × Option TxOut) :=
  match tokenAddress? (pyUpper fromToken), tokenAddress? (pyUpper toToken) with
  | none, _ => Except.error ("Unknown token: " ++ fromToken)
  | some _, none => Except.error ("Unknown token: " ++ toToken)
  | some fromTokenAddress, some toTokenAddress =>
    let isExactEthForTokens := pyUpper fromToken == "FLR"
    let isExactTokensForEth := pyUpper toToken == "FLR"
    let amountInWei := toWeiEther amount
    let amountOutMin := pyInt ((amountInWei : ℚ) * (1 - slippage))
    let deadline := env.blockTimestamp + DEFAULT_DEADLINE
    let wflr := (tokenAddress? "WFLR").getD ""
    let callValue :=
      if isExactEthForTokens then
        (amountInWei,
         CallData.swapExactETHForTokens amountOutMin [wflr, toTokenAddress] sender deadline)
      else if isExactTokensForEth then
        (0,
         CallData.swapExactTokensForETH amountInWei amountOutMin
           [fromTokenAddress, wflr] sender deadline)
      else
        (0,
         CallData.swapExactTokensForTokens amountInWei amountOutMin
           [fromTokenAddress, toTokenAddress] sender deadline)
    let swapTx : TxOut :=
      { sender := sender
        targetAddr := UNISWAP_V2_ROUTER
        value := some callValue.1
        data := callValue.2
        gas := 300000
        nonce := env.nonce
        gasPrice := none
        maxFeePerGas := some env.gasPrice
        maxPriorityFeePerGas := some env.maxPriorityFee
        chainId := env.chainId
        txType := some 2 }
    let approvalTx :=
      if !isExactEthForTokens then
        approveTokenIfNeeded env fromTokenAddress UNISWAP_V2_ROUTER amountInWei sender
      else none
    Except.ok (swapTx, approvalTx)

/-- `create_v3_swap_tx` (defi.py lines 581-764).  Note that `amount_out_min`
is computed (line 643) but the `exactInputSingle` params hard-code
`amountOutMinimum = 0` (line 735). -/
def createV3SwapTx (env : SwapEnv) (fromToken toToken : String) (amount : ℚ)
    (sender : String) (feeTier : Nat) (slippage : ℚ) (includeWflrSteps : Bool) :
    Except String (List TxOut) :=
  let isFlrSource := pyUpper fromToken == "FLR"
  let wflrAddressOpt := tokenAddress? "WFLR"
  match tokenAddress? (pyUpper toToken) with
  | none => Except.error ("Unknown token: " ++ toToken)
  | some toTokenAddress =>
    if isFlrSource && wflrAddressOpt.isNone then
      Except.error "WFLR token address not found"
    else
      let wflrAddress := wflrAddressOpt.getD ""
      let amountInWei := toWeiEther amount
      let amountOutMin := pyInt ((amountInWei : ℚ) * (1 - slippage))
      let deadline := env.blockTimestamp + DEFAULT_DEADLINE
      let mkSwapTx (fromTokenAddress : String) (nonce : Nat) : TxOut :=
        { sender := sender
          targetAddr := UNISWAP_V3_ROUTER
          value := some 0
          data := CallData.exactInputSingle fromTokenAddress toTokenAddress feeTier
            sender deadline amountInWei 0 0
          gas := 1000000
          nonce := nonce
          gasPrice := some env.gasPrice
          maxFeePerGas := none
          maxPriorityFeePerGas := none
          chainId := env.chainId
          txType := none }
      if isFlrSource && includeWflrSteps then
        let wrapTx : TxOut :=
          { sender := sender
            targetAddr := wflrAddress
            value := some amountInWei
            data := CallData.deposit
            gas := 200000
            nonce := env.nonce
            gasPrice := some env.gasPrice
            maxFeePerGas := none
            maxPriorityFeePerGas := none
            chainId := env.chainId
            txType := none }
        let approveTx : TxOut :=
          { sender := sender
            targetAddr := wflrAddress
            value := some 0
            data := CallData.approve UNISWAP_V3_ROUTER amountInWei
            gas := 200000
            nonce := env.nonce + 1
            gasPrice := some env.gasPrice
            maxFeePerGas := none
            maxPriorityFeePerGas := none
            chainId := env.chainId
            txType := none }
        Except.ok [wrapTx, approveTx, mkSwapTx wflrAddress (env.nonce + 2)]
      else
        match tokenAddress? (pyUpper fromToken) with
        | none => Except.error ("Unknown token: " ++ fromToken)
        | some fromTokenAddress =>
          if !isFlrSource then
            match approveTokenIfNeeded env fromTokenAddress UNISWAP_V3_ROUTER
                amountInWei sender with
            | some approvalTx =>
              Except.ok [{ approvalTx with nonce := env.nonce },
                mkSwapTx fromTokenAddress (env.nonce + 1)]
            | none => Except.ok [mkSwapTx fromTokenAddress env.nonce]
          else
            Except.ok [mkSwapTx fromTokenAddress env.nonce]

/-- `create_swap_tx` (defi.py lines 766-835): input validation, then dispatch
to the V3 or V2 builder (the V2 pair is flattened into a list).  The
checksum normalisation of `sender` is a web3 call and is kept as the
identity. -/
def createSwapTx (env : SwapEnv) (fromToken toToken : String) (amount : ℚ)
    (sender : String) (useV3 : Bool) (feeTier : Nat) (slippage : ℚ)
    (includeFlrWrap : Bool) : Except String (List TxOut) :=
  if fromToken == "" || toToken == "" then
    Except.error "Both source and target tokens must be specified"
  else if pyUpper fromToken == pyUpper toToken then
    Except.error "Source and target tokens must be different"
  else if amount ≤ 0 then
    Except.error "Amount must be positive"
  else if useV3 then
    createV3SwapTx env fromToken toToken amount sender feeTier slippage includeFlrWrap
  else
    match createV2SwapTx env fromToken toToken amount sender slippage with
    | Except.error e => Except.error e
    | Except.ok (swapTx, approvalTx) =>
      match approvalTx with
      | some a => Except.ok [a, swapTx]
      | none => Except.ok [swapTx]

/-! ### Transaction queue (flare.py) -/

/-- `TxQueueElement` (flare.py lines 21-32). -/
structure TxQueueElement where
  msg : String
  tx : Tx
  deriving DecidableEq, Repr

/-- `FlareProvider.send_tx_in_queue` (flare.py lines 91-118) acting on the
queue state.  `signAndSend` is the outcome of the external
`sign_and_send_transaction` (signing plus network broadcast); a raised
exception is `Except.error`.  The method pops the head entry in the success
path **and** in the exception handler before re-raising. -/
def sendTxInQueue (queue : List TxQueueElement)
    (signAndSend : Tx → Except String String) :
    Except String String × List TxQueueElement :=
  match queue with
  | [] => (Except.error "No transactions in queue", [])
  | e :: rest =>
    match signAndSend e.tx with
    | Except.ok h => (Except.ok h, rest)
    | Except.error err => (Except.error err, rest)

/-! ### Shared helper lemmas -/

lemma strMem_cons (b a : String) (l : List String) :
    strMem a (b :: l) = ((b == a) || strMem a l) := by
  simp [strMem]

lemma filter_length_pos_iff_any {α : Type} (p : α → Bool) (l : List α) :
    0 < (l.filter p).length ↔ l.any p = true := by
  induction l with
  | nil => simp
  | cons a t ih => cases h : p a <;> simp [List.filter_cons, h, ih]

/-- The final recomputation of `analyze_contract` agrees with the
highest-severity cascade stated over `List.any`. -/
lemma overall_eq_specHighestSeverity (r : ContractRiskReport) :
    overallRiskFromFindings r = specHighestSeverity r.findings := by
  unfold overallRiskFromFindings specHighestSeverity ContractRiskReport.getFindingsByLevel
  simp only [gt_iff_lt, filter_length_pos_iff_any]

/-! ### Claim theorems -/

/-- A sample report at running level LOW (the level every report starts from
on the analyzer's main path). -/
def lowReportC3 : ContractRiskReport :=
  { contract_address := "0xAbCd000000000000000000000000000000000001"
    chain_id := 14
    risk_level := RiskLevel.LOW
    findings := []
    verification_status := { is_verified := true, is_trusted := false, error := none }
    bytecode_analysis := none
    source_code_analysis := none
    ai_analysis := none
    summary := "" }

/-- The analyzer's own HIGH-severity finding for a dangerous selfdestruct
selector. -/
def highFindingC3 : RiskFinding :=
  dangerousFunctionFinding "0x41c0e1b5" "selfdestruct(address)"

/-- C3: `add_finding` appends the finding, but it does NOT raise the report's
`risk_level` to the maximum under SAFE < LOW < MEDIUM < HIGH < CRITICAL:
adding a HIGH finding to a LOW report leaves the report at LOW, because the
code compares the enum value strings and "high" < "low" lexicographically.
This evaluates the code at the claim's own example input. -/
theorem C3_addFinding_leaves_low_report_low :
    (lowReportC3.addFinding highFindingC3).findings = [highFindingC3]
    ∧ (lowReportC3.addFinding highFindingC3).risk_level = RiskLevel.LOW
    ∧ RiskLevel.rank (lowReportC3.addFinding highFindingC3).risk_level
        < RiskLevel.rank highFindingC3.level := by
  decide

/-- C7 (amended, the part that holds): `TransactionRisk`'s overloaded
comparisons agree with the spec ranking SAFE < LOW < MEDIUM < HIGH <
CRITICAL, and Python's `max` over them is well-defined: it returns one of its
arguments and its rank is the maximum of the two ranks. -/
theorem C7_transactionRisk_max_well_defined :
    ∀ a b : TransactionRisk,
      (TransactionRisk.ltb a b = decide (specRank a < specRank b))
      ∧ (pymaxRisk a b = a ∨ pymaxRisk a b = b)
      ∧ specRank (pymaxRisk a b) = max (specRank a) (specRank b) := by
  intro a b
  cases a <;> cases b <;> decide

/-- C7 counterexample: the comparison the contract analyzer actually uses to
merge `RiskLevel`s (the `.value` string comparison of `add_finding`) does not
respect the ranking: merging a HIGH finding into a LOW level yields LOW, and
the string order places "high" before "low" although LOW < HIGH in the
ranking. -/
theorem C7_riskLevel_value_comparison_breaks_ranking :
    valueMergeMax RiskLevel.LOW RiskLevel.HIGH = RiskLevel.LOW
    ∧ RiskLevel.rank RiskLevel.LOW < RiskLevel.rank RiskLevel.HIGH
    ∧ strLt (RiskLevel.value RiskLevel.HIGH) (RiskLevel.value RiskLevel.LOW) = true := by
  decide

/-- C8: `send_tx_in_queue` on a non-empty queue always removes exactly the
head entry — the new queue is the tail (one element shorter), so the same
transaction is not resubmitted by a later call — and a broadcast failure is
propagated to the caller verbatim while a success returns the hash. -/
theorem C8_sendTxInQueue_pops_head_always (e : TxQueueElement)
    (rest : List TxQueueElement) (send : Tx → Except String String) :
    (sendTxInQueue (e :: rest) send).2 = rest
    ∧ (sendTxInQueue (e :: rest) send).2.length + 1 = (e :: rest).length
    ∧ (∀ err, send e.tx = Except.error err →
        (sendTxInQueue (e :: rest) send).1 = Except.error err)
    ∧ (∀ h, send e.tx = Except.ok h →
        (sendTxInQueue (e :: rest) send).1 = Except.ok h) := by
  unfold sendTxInQueue
  cases hs : send e.tx <;> simp_all

/-- A queued transfer used to witness C8. -/
def txQueueW : TxQueueElement :=
  { msg := "Send 1 FLR to 0xAbCd000000000000000000000000000000000001"
    tx :=
      { toAddr := some "0xAbCd000000000000000000000000000000000001"
        value := some 1000000000000000000
        gas := some 21000
        gasPrice := some 25
        data := none
        fromAddr := none } }

/-- A broadcast outcome that rejects every transaction. -/
def sendFailW : Tx → Except String String :=
  fun _ => Except.error "insufficient funds for gas * price + value"

/-- Witness for C8 at a concrete one-element queue whose broadcast fails: the
error is propagated and the queue still shrinks to empty. -/
theorem C8_sendTxInQueue_witness :
    (sendTxInQueue [txQueueW] sendFailW).2 = []
    ∧ (sendTxInQueue [txQueueW] sendFailW).1 =
        Except.error "insufficient funds for gas * price + value" := by
  have h := C8_sendTxInQueue_pops_head_always txQueueW [] sendFailW
  exact ⟨h.1, h.2.2.1 "insufficient funds for gas * price + value" rfl⟩

/-- C10: on every `analyze_contract` run that takes neither the
empty-bytecode nor the known-safe short-circuit, the returned report's
`risk_level` equals the highest severity class present among its findings
(CRITICAL if any critical finding exists, else HIGH, else MEDIUM, else LOW,
else SAFE), because it is recomputed from the findings list at the end,
independent of the running level maintained by `add_finding`. -/
theorem C10_analyze_contract_level_is_highest_severity (env : AnalyzerEnv)
    (hcode : 2 < env.codeLen) (hsafe : env.knownSafe = false) :
    (analyzeContract env).risk_level =
      specHighestSeverity (analyzeContract env).findings := by
  unfold analyzeContract
  rw [if_neg (by omega), if_neg (by simp [hsafe])]
  unfold analyzeContractMain
  simp only []
  exact overall_eq_specHighestSeverity (analyzeContractPre env)

/-- A concrete analyzer environment: a deployed, unverified contract exposing
one dangerous selector, with no AI findings. -/
def envC10 : AnalyzerEnv :=
  { contract_address := "0xAbCd000000000000000000000000000000000002"
    chain_id := 14
    codeLen := 1200
    knownSafe := false
    verification := Except.ok { is_verified := false, is_trusted := false, error := none }
    dangerousFunctions := [("0xf2fde38b", "transferOwnership(address)")]
    selfdestructFound := false
    delegatecallFound := true
    isProxy := false
    sourceFails := false
    sourceError := ""
    srcUpgradePattern := false
    srcOwnershipPattern := false
    srcTimestampPattern := false
    aiFindings := none }

/-- Witness for C10: on the concrete run above (findings: MEDIUM unverified,
HIGH dangerous function, MEDIUM delegatecall) the theorem applies and the
final level evaluates to the highest severity present, HIGH. -/
theorem C10_analyze_contract_witness :
    2 < envC10.codeLen
    ∧ (analyzeContract envC10).risk_level =
        specHighestSeverity (analyzeContract envC10).findings
    ∧ (analyzeContract envC10).risk_level = RiskLevel.HIGH :=
  ⟨by decide, C10_analyze_contract_level_is_highest_severity envC10 (by decide) (by decide),
    by decide⟩

/-- `_perform_basic_validation` only ever adds to the validator's known-safe
set, so membership is preserved. -/
lemma strMem_basic_safeSet (env : ChainEnv) (safeSet : List String) (tx : Tx)
    (sender : String) (a : String) (h : strMem a safeSet = true) :
    strMem a (performBasicValidation env safeSet tx sender).safeSet = true := by
  unfold performBasicValidation
  by_cases hc : pyStartsWith (pyLower (tx.toAddr.getD "")) wflrTrunc
  · simp only [hc, if_true]
    simp [strMem_cons, h]
  · simp only [hc]
    simp [h]

/-- Membership in the validator's set makes the `known_safe_contract` test of
`_calculate_risk_level` succeed. -/
lemma knownSafeCheck_of_mem (safeSet : List String) (tx : Tx)
    (h : strMem (txToLower tx) safeSet = true) :
    knownSafeCheck safeSet tx = true := by
  unfold knownSafeCheck
  simp [strMem_cons, h]

/-- C1: a transaction whose (lower-cased) target is in the validator's
known-safe contract set and which passes the structural (basic) and security
validation stages always comes back with `risk_level = LOW`, whatever the
chain state, warnings, simulation outcome and AI analysis are. -/
theorem C1_known_safe_target_forces_low (env : ChainEnv) (safeSet : List String)
    (tx : Tx) (sender : String) (ai : AiAnalysis)
    (hb : (performBasicValidation env safeSet tx sender).is_valid = true)
    (hs : (performSecurityValidation env tx).is_valid = true)
    (hmem : strMem (txToLower tx) safeSet = true) :
    (validateTransaction env safeSet tx sender ai).risk_level = TransactionRisk.LOW := by
  have hks : knownSafeCheck (performBasicValidation env safeSet tx sender).safeSet tx = true :=
    knownSafeCheck_of_mem _ _ (strMem_basic_safeSet env safeSet tx sender _ hmem)
  unfold validateTransaction
  simp only [hb, hs, Bool.not_true, Bool.false_eq_true, if_false]
  unfold calculateRiskLevel
  simp [hks]

/-- The chain environment of the C1/C2 concrete runs: zero balance, every
string accepted as an address, no scam entries, contract code behind every
address. -/
def envW : ChainEnv :=
  { rpcFails := false
    balance := 0
    gasPriceDefault := 10
    codeLen := fun _ => 100
    isAddress := fun _ => true
    scamAddresses := [] }

/-- A 1-FLR transfer to the canonical wrapped-native-token (WFLR) contract,
whose lower-cased address is in the validator's initial known-safe set. -/
def txToWflr : Tx :=
  { toAddr := some "0x1D80c49BbBCd1C0911346656B529DF9E5c2F783d"
    value := some 1000000000000000000
    gas := some 21000
    gasPrice := some 10
    data := none
    fromAddr := none }

/-- The spec's example adversarial AI verdict: security score 5. -/
def aiScore5 : AiAnalysis := { security_score := 5, risk_assessment := "known scam pattern" }

/-- Witness for C1: the spec's own example — target WFLR, AI score 5, zero
balance (so the simulation reports `can_afford = false`) — still yields LOW. -/
theorem C1_known_safe_target_witness :
    (validateTransaction envW initKnownSafeContracts txToWflr "0xSender" aiScore5).risk_level
      = TransactionRisk.LOW :=
  C1_known_safe_target_forces_low envW initKnownSafeContracts txToWflr "0xSender" aiScore5
    (by decide) (by decide) (by decide)

/-- C2 counterexample: the claim quantifies over **every** target address,
but for a target in the known-safe set the override wins: with a zero
balance the simulation reports `can_afford = false`, yet the result is LOW —
strictly better than HIGH. -/
theorem C2_known_safe_target_beats_cannot_afford :
    ((validateTransaction envW initKnownSafeContracts txToWflr "0xSender2"
        { security_score := 50, risk_assessment := "ok" }).simulation_result.map
          (fun s => s.can_afford)) = some false
    ∧ (validateTransaction envW initKnownSafeContracts txToWflr "0xSender2"
        { security_score := 50, risk_assessment := "ok" }).risk_level = TransactionRisk.LOW
    ∧ specRank TransactionRisk.LOW < specRank TransactionRisk.HIGH := by
  decide

/-- When no RPC error occurs and the balance does not cover value plus
maximal fee, `_simulate_transaction` reports a successful simulation with
`can_afford = False`. -/
lemma simulate_cannot_afford (env : ChainEnv) (safeSet : List String) (tx : Tx)
    (hrpc : env.rpcFails = false)
    (hbal : env.balance <
      tx.value.getD 0 + tx.gasPrice.getD env.gasPriceDefault * tx.gas.getD 21000) :
    (simulateTransaction env safeSet tx).simulation_successful = true
    ∧ (simulateTransaction env safeSet tx).can_afford = false := by
  have hle : ¬ (tx.value.getD 0 + tx.gasPrice.getD env.gasPriceDefault * tx.gas.getD 21000
      ≤ env.balance) := Nat.not_le.mpr hbal
  unfold simulateTransaction
  rw [hrpc]
  cases htx : tx.toAddr with
  | none => simp [hle]
  | some toA =>
    by_cases he : pyNonEmpty toA <;> simp [he, hle]

set_option maxHeartbeats 1000000 in
/-- The merge of `_calculate_risk_level` never yields anything below HIGH
when the simulation succeeded but reported an unaffordable transaction and
the target is not known-safe. -/
lemma calc_cannot_afford_high_or_critical (safeSet : List String) (tx : Tx)
    (sim : SimulationResult) (ai : AiAnalysis) (warnings : List String)
    (hks : knownSafeCheck safeSet tx = false)
    (hsucc : sim.simulation_successful = true)
    (haff : sim.can_afford = false) :
    calculateRiskLevel safeSet tx sim ai warnings = TransactionRisk.HIGH
    ∨ calculateRiskLevel safeSet tx sim ai warnings = TransactionRisk.CRITICAL := by
  unfold calculateRiskLevel
  simp only [hks, Bool.false_eq_true, if_false, hsucc, haff, Bool.not_true, Bool.not_false,
    if_true]
  split_ifs <;> simp_all [pymaxRisk, TransactionRisk.gtb, TransactionRisk.riskValue]

/-- C2 (amended): for a target **not** in the validator's known-safe set, a
transaction whose value plus maximal gas cost exceeds the sender's balance is
never returned with a risk level better than HIGH: the result is HIGH or
CRITICAL through every branch of `validate_transaction`. -/
theorem C2_cannot_afford_never_below_high (env : ChainEnv) (safeSet : List String)
    (tx : Tx) (sender : String) (ai : AiAnalysis)
    (hks : knownSafeCheck (performBasicValidation env safeSet tx sender).safeSet tx = false)
    (hrpc : env.rpcFails = false)
    (hbal : env.balance <
      tx.value.getD 0 + tx.gasPrice.getD env.gasPriceDefault * tx.gas.getD 21000) :
    (validateTransaction env safeSet tx sender ai).risk_level = TransactionRisk.HIGH
    ∨ (validateTransaction env safeSet tx sender ai).risk_level = TransactionRisk.CRITICAL := by
  unfold validateTransaction
  cases hb : (performBasicValidation env safeSet tx sender).is_valid with
  | false => simp [hb]
  | true =>
    cases hs : (performSecurityValidation env tx).is_valid with
    | false => simp [hb, hs]
    | true =>
      have hsim := simulate_cannot_afford env
        (performBasicValidation env safeSet tx sender).safeSet tx hrpc hbal
      simp only [hb, hs, Bool.not_true, Bool.false_eq_true, if_false]
      exact calc_cannot_afford_high_or_critical _ tx _ ai _ hks hsim.1 hsim.2

/-- A 1-FLR transfer to an address outside the known-safe set. -/
def txToPlain : Tx :=
  { toAddr := some "0xAbCd000000000000000000000000000000000003"
    value := some 1000000000000000000
    gas := some 21000
    gasPrice := some 10
    data := none
    fromAddr := none }

/-- Witness for the amended C2: with zero balance and a non-known-safe
target, the result is HIGH or CRITICAL (here: HIGH). -/
theorem C2_cannot_afford_witness :
    ((validateTransaction envW initKnownSafeContracts txToPlain "0xSender" aiScore5).risk_level
        = TransactionRisk.HIGH
      ∨ (validateTransaction envW initKnownSafeContracts txToPlain "0xSender" aiScore5).risk_level
        = TransactionRisk.CRITICAL)
    ∧ envW.balance < txToPlain.value.getD 0 +
        txToPlain.gasPrice.getD envW.gasPriceDefault * txToPlain.gas.getD 21000 :=
  ⟨C2_cannot_afford_never_below_high envW initKnownSafeContracts txToPlain "0xSender" aiScore5
      (by decide) (by decide) (by decide),
    by decide⟩

/-- A failed simulation, as produced by `_simulate_transaction`'s exception
handler (read back through the `.get` defaults). -/
def simFailW : SimulationResult :=
  { simulation_successful := false
    can_afford := true
    estimated_gas := 0
    is_contract_interaction := false
    contract_is_verified := false }

/-- An AI analysis that failed, carrying the error marker the merge step
looks for. -/
def aiErrW : AiAnalysis :=
  { security_score := 50
    risk_assessment := "AI analysis encountered an error: timeout" }

/-- Six accumulated warnings — above the `> 5` CRITICAL threshold. -/
def sixWarnings : List String :=
  ["Unusually high gas limit", "Unusually large data field",
   "Unusually high transaction value", "warning 4", "warning 5", "warning 6"]

/-- C4 counterexample: with more than 5 warnings the warning stage sets
CRITICAL, but a failed simulation then **assigns** HIGH (it does not take the
maximum), so the merge returns HIGH — not CRITICAL as the claim states. -/
theorem C4_simulation_branch_lowers_critical :
    calculateRiskLevel [] txToPlain simFailW aiErrW sixWarnings = TransactionRisk.HIGH
    ∧ TransactionRisk.HIGH ≠ TransactionRisk.CRITICAL
    ∧ 5 < sixWarnings.length := by
  decide

set_option maxHeartbeats 1000000 in
/-- C4 (amended): the warning thresholds and the AI buckets below 20 only
ever raise the level (CRITICAL is the top), the 40–79 buckets take Python's
`max`, and the two stated downgrades (AI ≥ 80 turning LOW into SAFE, SAFE
demoted to LOW for unverified contracts) are the only AI-stage exceptions —
but the simulation branch is a plain assignment: whenever the simulation
failed and the AI score does not force CRITICAL (error or score ≥ 20), the
merge returns exactly HIGH, even with more than 5 warnings. -/
theorem C4_merge_simulation_assignment_wins (safeSet : List String) (tx : Tx)
    (sim : SimulationResult) (ai : AiAnalysis) (warnings : List String)
    (hks : knownSafeCheck safeSet tx = false)
    (hw : 5 < warnings.length)
    (hsim : sim.simulation_successful = false)
    (hai : ai.aiErrorFlag = true ∨ 20 ≤ ai.security_score) :
    calculateRiskLevel safeSet tx sim ai warnings = TransactionRisk.HIGH := by
  unfold calculateRiskLevel
  simp only [hks, Bool.false_eq_true, if_false, hsim, Bool.not_false, if_true]
  rcases hai with he | hscore
  · simp only [he, Bool.not_true, Bool.false_eq_true, if_false]
    split_ifs <;> simp_all
  · split_ifs <;>
      simp_all [pymaxRisk, TransactionRisk.gtb, TransactionRisk.riskValue] <;> omega

/-- An AI verdict with a very high score and no error marker. -/
def aiScore85 : AiAnalysis := { security_score := 85, risk_assessment := "no issues found" }

/-- Witness for the amended C4: six warnings, failed simulation, AI score 85
— the merge yields exactly HIGH. -/
theorem C4_merge_simulation_assignment_witness :
    calculateRiskLevel [] txToPlain simFailW aiScore85 sixWarnings = TransactionRisk.HIGH :=
  C4_merge_simulation_assignment_wins [] txToPlain simFailW aiScore85 sixWarnings
    (by decide) (by decide) (by decide) (Or.inr (by decide))

/-- C9: `is_valid = false` does not mean `risk_level = CRITICAL`.  Every
CRITICAL result is invalid; a security-stage rejection is invalid with level
HIGH (not CRITICAL); and on the full pipeline (both stages passing) `is_valid`
is exactly `risk_level ≠ CRITICAL`. -/
theorem C9_is_valid_versus_critical (env : ChainEnv) (safeSet : List String)
    (tx : Tx) (sender : String) (ai : AiAnalysis) :
    ((validateTransaction env safeSet tx sender ai).risk_level = TransactionRisk.CRITICAL →
      (validateTransaction env safeSet tx sender ai).is_valid = false)
    ∧ ((performBasicValidation env safeSet tx sender).is_valid = true →
        (performSecurityValidation env tx).is_valid = false →
        (validateTransaction env safeSet tx sender ai).is_valid = false
        ∧ (validateTransaction env safeSet tx sender ai).risk_level = TransactionRisk.HIGH)
    ∧ ((performBasicValidation env safeSet tx sender).is_valid = true →
        (performSecurityValidation env tx).is_valid = true →
        ((validateTransaction env safeSet tx sender ai).is_valid = true ↔
          (validateTransaction env safeSet tx sender ai).risk_level ≠ TransactionRisk.CRITICAL)) := by
  cases hb : (performBasicValidation env safeSet tx sender).is_valid with
  | false =>
    refine ⟨?_, ?_, ?_⟩ <;> simp [validateTransaction, hb]
  | true =>
    cases hs : (performSecurityValidation env tx).is_valid with
    | false =>
      refine ⟨?_, ?_, ?_⟩ <;> simp [validateTransaction, hb, hs]
    | true =>
      refine ⟨?_, ?_, ?_⟩ <;> simp [validateTransaction, hb, hs, bne_iff_ne]

/-- Chain environment whose scam set contains one address. -/
def envScam : ChainEnv :=
  { rpcFails := false
    balance := 10000000000000000000
    gasPriceDefault := 10
    codeLen := fun _ => 0
    isAddress := fun _ => true
    scamAddresses := ["0xBad0000000000000000000000000000000000bad"] }

/-- A transfer to the scam address. -/
def txToScam : Tx :=
  { toAddr := some "0xBad0000000000000000000000000000000000bad"
    value := some 1
    gas := some 21000
    gasPrice := some 10
    data := none
    fromAddr := none }

/-- Witness for C9: a recipient in the scam set is rejected by the security
stage with `is_valid = false` yet `risk_level = HIGH`, so invalidity does not
imply CRITICAL. -/
theorem C9_scam_rejection_witness :
    (validateTransaction envScam initKnownSafeContracts txToScam "0xSender" aiScore85).is_valid
      = false
    ∧ (validateTransaction envScam initKnownSafeContracts txToScam "0xSender" aiScore85).risk_level
      = TransactionRisk.HIGH :=
  (C9_is_valid_versus_critical envScam initKnownSafeContracts txToScam "0xSender"
    aiScore85).2.1 (by decide) (by decide)

lemma pyInt_natCast (n : ℕ) : pyInt ((n : ℚ)) = (n : ℤ) := by
  simp [pyInt, Int.tdiv_one]

lemma toWeiEther_one : toWeiEther 1 = 1000000000000000000 := by
  unfold toWeiEther
  have h : ((1 : ℚ) * 10 ^ 18) = ((1000000000000000000 : ℕ) : ℚ) := by norm_num
  rw [h, pyInt_natCast]
  simp

/-- The claim's formula at the concrete input of the C5 witnesses: 1 token,
default slippage 0.5%. -/
lemma minOut_one_half_percent :
    pyInt ((toWeiEther 1 : ℚ) * (1 - 1 / 200)) = 995000000000000000 := by
  rw [toWeiEther_one]
  have h : ((1000000000000000000 : ℕ) : ℚ) * (1 - 1 / 200)
      = ((995000000000000000 : ℕ) : ℚ) := by push_cast; norm_num
  rw [h, pyInt_natCast]
  norm_num

/-- C5 (amended): the V2 builder encodes
`amount_out_min = int(amount_in_wei * (1 - slippage))` into every router
call, but the V3 builder, although it computes the same value, hard-codes
`amountOutMinimum = 0` in the `exactInputSingle` params of the final swap
transaction. -/
theorem C5_min_out_v2_formula_v3_zero (env : SwapEnv) (fromToken toToken : String)
    (amount : ℚ) (sender : String) (feeTier : Nat) (slippage : ℚ)
    (includeWflrSteps : Bool) :
    (∀ swapTx approvalTx,
      createV2SwapTx env fromToken toToken amount sender slippage
        = Except.ok (swapTx, approvalTx) →
      swapTx.data.v2MinOut? = some (pyInt ((toWeiEther amount : ℚ) * (1 - slippage))))
    ∧ (∀ txs swapTx,
      createV3SwapTx env fromToken toToken amount sender feeTier slippage includeWflrSteps
        = Except.ok txs →
      txs.getLast? = some swapTx →
      swapTx.data.v3MinOut? = some 0) := by
  constructor
  · intro swapTx approvalTx h
    unfold createV2SwapTx at h
    cases h1 : tokenAddress? (pyUpper fromToken) with
    | none => rw [h1] at h; simp at h
    | some fta =>
      cases h2 : tokenAddress? (pyUpper toToken) with
      | none => rw [h1, h2] at h; simp at h
      | some tta =>
        rw [h1, h2] at h
        simp only [Except.ok.injEq, Prod.mk.injEq] at h
        obtain ⟨hswap, _⟩ := h
        subst hswap
        by_cases hE : (pyUpper fromToken == "FLR") = true <;>
          by_cases hT : (pyUpper toToken == "FLR") = true <;>
            simp [hE, hT, CallData.v2MinOut?]
  · intro txs swapTx h hlast
    unfold createV3SwapTx at h
    cases h2 : tokenAddress? (pyUpper toToken) with
    | none => rw [h2] at h; simp at h
    | some tta =>
      rw [h2] at h
      have hw : tokenAddress? "WFLR"
          = some "0x1D80c49BbBCd1C0911346656B529DF9E5c2F783d" := rfl
      rw [hw] at h
      simp only [Option.isNone_some, Bool.and_false, Bool.false_eq_true, if_false] at h
      by_cases hE : ((pyUpper fromToken == "FLR") && includeWflrSteps) = true
      · rw [if_pos hE] at h
        simp only [Except.ok.injEq] at h
        subst h
        simp [List.getLast?] at hlast
        subst hlast
        rfl
      · rw [if_neg hE] at h
        cases h1 : tokenAddress? (pyUpper fromToken) with
        | none => rw [h1] at h; simp at h
        | some fta =>
          rw [h1] at h
          by_cases hF : (pyUpper fromToken == "FLR") = true
          · simp only [hF, Bool.not_true, Bool.false_eq_true, if_false] at h
            simp only [Except.ok.injEq] at h
            subst h
            simp [List.getLast?] at hlast
            subst hlast
            rfl
          · simp only [Bool.not_eq_true] at hF
            simp only [hF, Bool.not_false, if_true] at h
            cases ha : approveTokenIfNeeded env fta UNISWAP_V3_ROUTER
                (toWeiEther amount) sender with
            | none =>
              rw [ha] at h
              simp only [Except.ok.injEq] at h
              subst h
              simp [List.getLast?] at hlast
              subst hlast
              rfl
            | some a =>
              rw [ha] at h
              simp only [Except.ok.injEq] at h
              subst h
              simp [List.getLast?] at hlast
              subst hlast
              rfl

/-- The swap environment of the builder witnesses; the sender has already
granted an allowance (`alreadyApproved`), which the builder ignores. -/
def envSwapW : SwapEnv :=
  { blockTimestamp := 1700000000
    nonce := 7
    gasPrice := 25
    maxPriorityFee := 2
    chainId := 14
    alreadyApproved := true }

/-- C5 counterexample: for a concrete V3 swap of 1 USDC with slippage 0.5%,
the encoded `amountOutMinimum` is 0, while the claim's formula
`int(amount_in_wei * (1 - slippage))` gives 995000000000000000. -/
theorem C5_v3_encodes_zero_min_out :
    Except.map (fun txs => txs.getLast?.bind (fun t => t.data.v3MinOut?))
        (createV3SwapTx envSwapW "USDC" "WFLR" 1 "0xSender" 3000 (1 / 200) true)
      = Except.ok (some 0)
    ∧ pyInt ((toWeiEther 1 : ℚ) * (1 - 1 / 200)) = 995000000000000000
    ∧ (0 : ℤ) ≠ 995000000000000000 := by
  refine ⟨by decide, minOut_one_half_percent, by decide⟩

/-- Witness for the amended C5: the V2 swap of 1 USDC to WFLR encodes
`amountOutMin = 995000000000000000 = int(10^18 * (1 - 0.005))`, and the
concrete V3 run encodes `amountOutMinimum = 0`, both obtained through the
theorem. -/
theorem C5_min_out_witness :
    (∃ swapTx approvalTx,
      createV2SwapTx envSwapW "USDC" "WFLR" 1 "0xSender" (1 / 200)
        = Except.ok (swapTx, approvalTx)
      ∧ swapTx.data.v2MinOut? = some 995000000000000000)
    ∧ (∃ txs swapTx,
      createV3SwapTx envSwapW "USDC" "WFLR" 1 "0xSender" 3000 (1 / 200) true
        = Except.ok txs
      ∧ txs.getLast? = some swapTx
      ∧ swapTx.data.v3MinOut? = some 0) := by
  have hpair := C5_min_out_v2_formula_v3_zero envSwapW "USDC" "WFLR" 1 "0xSender" 3000
    (1 / 200) true
  constructor
  · obtain ⟨swapTx, approvalTx, hok⟩ :
        ∃ swapTx approvalTx, createV2SwapTx envSwapW "USDC" "WFLR" 1 "0xSender" (1 / 200)
          = Except.ok (swapTx, approvalTx) := by
      cases hv : createV2SwapTx envSwapW "USDC" "WFLR" 1 "0xSender" (1 / 200) with
      | error e =>
        have hne : (createV2SwapTx envSwapW "USDC" "WFLR" 1 "0xSender"
            (1 / 200)).toOption.isSome = true := by decide
        rw [hv] at hne
        simp [Except.toOption] at hne
      | ok p => exact ⟨p.1, p.2, rfl⟩
    refine ⟨swapTx, approvalTx, hok, ?_⟩
    rw [hpair.1 swapTx approvalTx hok, minOut_one_half_percent]
  · obtain ⟨txs, hok⟩ :
        ∃ txs, createV3SwapTx envSwapW "USDC" "WFLR" 1 "0xSender" 3000 (1 / 200) true
          = Except.ok txs := by
      cases hv : createV3SwapTx envSwapW "USDC" "WFLR" 1 "0xSender" 3000 (1 / 200) true with
      | error e =>
        have hne : (createV3SwapTx envSwapW "USDC" "WFLR" 1 "0xSender" 3000 (1 / 200)
            true).toOption.isSome = true := by decide
        rw [hv] at hne
        simp [Except.toOption] at hne
      | ok l => exact ⟨l, rfl⟩
    obtain ⟨swapTx, hlast⟩ : ∃ swapTx, txs.getLast? = some swapTx := by
      cases hl : txs.getLast? with
      | none =>
        rw [show txs = [] from by
          cases txs with
          | nil => rfl
          | cons a l => simp [List.getLast?] at hl] at hok
        exact absurd hok (by decide)
      | some t => exact ⟨t, rfl⟩
    exact ⟨txs, swapTx, hok, hlast, hpair.2 txs swapTx hok hlast⟩

/-- Inversion of the three-entry token table. -/
lemma tokenAddress_cases (sym addr : String) (h : tokenAddress? sym = some addr) :
    (sym = "FLR" ∧ addr = "0x1111111111111111111111111111111111111111")
    ∨ (sym = "WFLR" ∧ addr = "0x1D80c49BbBCd1C0911346656B529DF9E5c2F783d")
    ∨ (sym = "USDC" ∧ addr = "0xFbDa5F676cB37624f28265A144A48B0d6e87d3b6") := by
  unfold tokenAddress? TOKEN_ADDRESSES at h
  simp [List.lookup] at h
  split at h
  · simp_all
  · split at h
    · simp_all
    · split at h <;> simp_all

/-- `_approve_token_if_needed` always emits an approval transaction for a
token other than the native placeholder — it never inspects the current
allowance. -/
lemma approveTokenIfNeeded_nonFLR (env : SwapEnv) (tokenAddress spender : String)
    (amount : Nat) (sender : String)
    (hne : (pyLower tokenAddress
      == pyLower "0x1111111111111111111111111111111111111111") = false) :
    approveTokenIfNeeded env tokenAddress spender amount sender
      = some { sender := sender, targetAddr := tokenAddress, value := none,
               data := CallData.approve spender amount, gas := 100000, nonce := env.nonce,
               gasPrice := none, maxFeePerGas := some env.gasPrice,
               maxPriorityFeePerGas := some env.maxPriorityFee, chainId := env.chainId,
               txType := some 2 } := by
  unfold approveTokenIfNeeded
  rw [hne]
  simp

/-- C6 (amended): `create_swap_tx` on the V3 path returns exactly 3 ordered
transactions (wrap, approve, swap) for a native-token source with wrap steps
enabled, and exactly 2 transactions (approve, swap) for every non-native
source — never 1, whatever the existing approval state is, because the
approval step never checks the current allowance. -/
theorem C6_swap_tx_list_shapes (env : SwapEnv) (fromToken toToken : String) (amount : ℚ)
    (sender : String) (feeTier : Nat) (slippage : ℚ) (wrap : Bool) (txs : List TxOut) :
    (pyUpper fromToken = "FLR" → wrap = true →
      createSwapTx env fromToken toToken amount sender true feeTier slippage wrap
        = Except.ok txs →
      txs.map (fun t => t.data.tag) = ["deposit", "approve", "exactInputSingle"]
      ∧ txs.length = 3)
    ∧ (pyUpper fromToken ≠ "FLR" →
      createSwapTx env fromToken toToken amount sender true feeTier slippage wrap
        = Except.ok txs →
      txs.map (fun t => t.data.tag) = ["approve", "exactInputSingle"]
      ∧ txs.length = 2) := by
  have hw : tokenAddress? "WFLR"
      = some "0x1D80c49BbBCd1C0911346656B529DF9E5c2F783d" := rfl
  constructor
  · intro hF hwrap h
    unfold createSwapTx at h
    split_ifs at h <;> try simp at h
    all_goals try contradiction
    unfold createV3SwapTx at h
    cases h2 : tokenAddress? (pyUpper toToken) with
    | none => rw [h2] at h; simp at h
    | some tta =>
      rw [h2, hw] at h
      simp only [hF, hwrap, beq_self_eq_true, Option.isNone_some, Bool.and_false,
        Bool.false_eq_true, if_false, Bool.and_true, if_true] at h
      simp only [Except.ok.injEq] at h
      subst h
      constructor
      · rfl
      · rfl
  · intro hF h
    unfold createSwapTx at h
    split_ifs at h <;> try simp at h
    all_goals try contradiction
    unfold createV3SwapTx at h
    cases h2 : tokenAddress? (pyUpper toToken) with
    | none => rw [h2] at h; simp at h
    | some tta =>
      rw [h2, hw] at h
      have hFb : (pyUpper fromToken == "FLR") = false := beq_eq_false_iff_ne.mpr hF
      simp only [hFb, Option.isNone_some, Bool.and_false, Bool.false_eq_true, if_false,
        Bool.false_and] at h
      cases h1 : tokenAddress? (pyUpper fromToken) with
      | none => rw [h1] at h; simp at h
      | some fta =>
        rw [h1] at h
        simp only [hFb, Bool.not_false, if_true] at h
        have hfta := tokenAddress_cases (pyUpper fromToken) fta h1
        have hne : (pyLower fta
            == pyLower "0x1111111111111111111111111111111111111111") = false := by
          rcases hfta with ⟨hs, _⟩ | ⟨_, ha⟩ | ⟨_, ha⟩
          · exact absurd hs hF
          · rw [ha]; decide
          · rw [ha]; decide
        rw [approveTokenIfNeeded_nonFLR env fta UNISWAP_V3_ROUTER
          (toWeiEther amount) sender hne] at h
        simp only [Except.ok.injEq] at h
        subst h
        exact ⟨rfl, rfl⟩

/-- C6 counterexample: with an existing approval in place
(`alreadyApproved = true`) a USDC-source swap still returns 2 transactions,
not 1 — the builder never consults the approval state. -/
theorem C6_already_approved_still_two_txs :
    envSwapW.alreadyApproved = true
    ∧ Except.map List.length
        (createSwapTx envSwapW "USDC" "WFLR" 1 "0xSender" true 3000 (1 / 200) true)
      = Except.ok 2
    ∧ (2 : Nat) ≠ 1 := by
  exact ⟨rfl, by decide, by decide⟩

/-- Witness for the amended C6 at the two concrete swaps: FLR source gives
the (wrap, approve, swap) triple, USDC source gives (approve, swap). -/
theorem C6_swap_tx_list_shapes_witness :
    (∃ txs, createSwapTx envSwapW "FLR" "USDC" 1 "0xSender" true 3000 (1 / 200) true
        = Except.ok txs
      ∧ txs.map (fun t => t.data.tag) = ["deposit", "approve", "exactInputSingle"]
      ∧ txs.length = 3)
    ∧ (∃ txs, createSwapTx envSwapW "USDC" "WFLR" 1 "0xSender" true 3000 (1 / 200) true
        = Except.ok txs
      ∧ txs.map (fun t => t.data.tag) = ["approve", "exactInputSingle"]
      ∧ txs.length = 2) := by
  constructor
  · obtain ⟨txs, hok⟩ :
        ∃ txs, createSwapTx envSwapW "FLR" "USDC" 1 "0xSender" true 3000 (1 / 200) true
          = Except.ok txs := by
      cases hv : createSwapTx envSwapW "FLR" "USDC" 1 "0xSender" true 3000 (1 / 200) true with
      | error e =>
        have hne : (createSwapTx envSwapW "FLR" "USDC" 1 "0xSender" true 3000 (1 / 200)
            true).toOption.isSome = true := by decide
        rw [hv] at hne
        simp [Except.toOption] at hne
      | ok l => exact ⟨l, rfl⟩
    have hsh := (C6_swap_tx_list_shapes envSwapW "FLR" "USDC" 1 "0xSender" 3000 (1 / 200)
      true txs).1 (by decide) rfl hok
    exact ⟨txs, hok, hsh.1, hsh.2⟩
  · obtain ⟨txs, hok⟩ :
        ∃ txs, createSwapTx envSwapW "USDC" "WFLR" 1 "0xSender" true 3000 (1 / 200) true
          = Except.ok txs := by
      cases hv : createSwapTx envSwapW "USDC" "WFLR" 1 "0xSender" true 3000 (1 / 200) true with
      | error e =>
        have hne : (createSwapTx envSwapW "USDC" "WFLR" 1 "0xSender" true 3000 (1 / 200)
            true).toOption.isSome = true := by decide
        rw [hv] at hne
        simp [Except.toOption] at hne
      | ok l => exact ⟨l, rfl⟩
    have hsh := (C6_swap_tx_list_shapes envSwapW "USDC" "WFLR" 1 "0xSender" 3000 (1 / 200)
      true txs).2 (by decide) hok
    exact ⟨txs, hok, hsh.1, hsh.2⟩

end FlareDefai
